import Mathlib

/-!
# go-chat-kafka authentication core: shallow embedding and verification

This file embeds the credential/session subsystem of the repository
(`internal/service/auth_service.go`, `pkg/utils/jwt.go`,
`pkg/utils/password.go`) in Lean 4 and proves the claimed properties of
the spec against it.

Modelling conventions:
* Go strings are modelled as Lean `String` (byte-level operations of the
  handwritten `contains` helper work on `List Char`, the `.data` view);
* Go `error` values are modelled by their message `String`; `fmt.Errorf`
  with `%w` is message concatenation `prefix ++ wrapped-message`, which
  preserves distinguishability of wrapped causes;
* `time.Time` instants and durations are modelled as `Int` seconds;
* randomness (fresh UUIDs, bcrypt salts) is threaded as explicit inputs;
* the sqlc-generated repository (`GetUserByEmail`, `CreateUser`,
  `GetRefreshToken`, ...) is not part of the sources, so it is modelled
  from the spec over an explicit in-memory database state;
* the external libraries (golang-jwt, bcrypt) are modelled from the spec
  with perfectly collision-free primitives.
-/

set_option maxHeartbeats 1000000

deriving instance DecidableEq for Except

namespace ChatKafka

/-! ## JWT model (`pkg/utils/jwt.go` plus a spec-model of golang-jwt) -/

/-- JWT signing algorithms occurring in the spec's algorithm-confusion
discussion: the HMAC family (`HS*`), the `none` pseudo-algorithm and
asymmetric algorithms. -/
inductive Alg where
  | HS256
  | HS384
  | HS512
  | alg_none
  | RS256
  | ES256
deriving DecidableEq, Repr

/-- The HMAC family check performed by the key functions in
`ValidateAccessToken` / `ValidateRefreshToken`
(`token.Method.(*jwt.SigningMethodHMAC)`). -/
def Alg.isHMAC : Alg → Bool
  | .HS256 => true
  | .HS384 => true
  | .HS512 => true
  | _ => false

/-- Printable name of the algorithm, standing for Go's
`token.Header["alg"]` in the key-function error message. -/
def Alg.name : Alg → String
  | .HS256 => "HS256"
  | .HS384 => "HS384"
  | .HS512 => "HS512"
  | .alg_none => "none"
  | .RS256 => "RS256"
  | .ES256 => "ES256"

/-- The claim set of a token.  Access tokens (`types.Claims`) carry
`userID`/`username`/`email` plus the registered claims; refresh tokens
(`jwt.RegisteredClaims`) carry only the registered claims, with the
account id in `subject`.  A single payload type with all fields covers
both (unused fields are empty / `none`). -/
structure Payload where
  userID : String
  username : String
  email : String
  subject : String
  expiresAt : Option Int
  notBefore : Option Int
  issuedAt : Option Int
  jti : String
deriving DecidableEq, Repr

/-- Modelled from the spec: an HMAC signature over a payload.  The MAC is
treated as perfectly collision-free, so a signature value is exactly the
triple (algorithm, key, signed payload). -/
structure Sig where
  alg : Alg
  key : String
  payload : Payload
deriving DecidableEq, Repr

/-- A structurally well-formed JWT: header algorithm, claims, signature. -/
structure JWT where
  alg : Alg
  payload : Payload
  sig : Sig
deriving DecidableEq, Repr

/-- Modelled from the spec: signing a payload (`token.SignedString`). -/
def signPayload (alg : Alg) (key : String) (payload : Payload) : Sig :=
  { alg := alg, key := key, payload := payload }

/-- A token string as received over the wire: either garbage that does not
parse as a JWT (including the empty string), or a well-formed token. -/
inductive TokenString where
  | str (raw : String)
  | tok (t : JWT)
deriving DecidableEq, Repr

/-- The Go test `tokenString == ""`. A serialized signed token is never
the empty string. -/
def TokenString.isEmptyStr : TokenString → Bool
  | .str s => s == ""
  | .tok _ => false

/-- Modelled from the spec: the temporal-claims validation of golang-jwt
v5 — a present `exp` in the past is "expired", a present `nbf` in the
future is "not valid yet"; absent claims are not checked. -/
def validateTemporalClaims (p : Payload) (now : Int) : Except String Unit :=
  match p.expiresAt with
  | some e =>
    if e ≤ now then .error "token has invalid claims: token is expired"
    else
      match p.notBefore with
      | some n =>
        if now < n then .error "token has invalid claims: token is not valid yet"
        else .ok ()
      | none => .ok ()
  | none =>
    match p.notBefore with
    | some n =>
      if now < n then .error "token has invalid claims: token is not valid yet"
      else .ok ()
    | none => .ok ()

/-- Modelled from the spec: `jwt.ParseWithClaims` of golang-jwt v5, which
is not part of the sources.  It rejects malformed input, runs the
caller's key function (which may reject the algorithm), verifies the
signature with the returned key, and validates the temporal claims
(`exp`, `nbf`) against `now`. -/
def parseWithClaims (ts : TokenString) (keyfunc : JWT → Except String String)
    (now : Int) : Except String JWT :=
  match ts with
  | .str _ => .error "token is malformed"
  | .tok t =>
    match keyfunc t with
    | .error e => .error ("token is unverifiable: error while executing keyfunc: " ++ e)
    | .ok key =>
      if t.sig ≠ signPayload t.alg key t.payload then
        .error "token signature is invalid"
      else
        match validateTemporalClaims t.payload now with
        | .error e => .error e
        | .ok _ => .ok t

/-- `GenerateAccessToken` from `pkg/utils/jwt.go`: full claims, `exp =
now+duration`, `iat = nbf = now`, fresh `jti`, signed `HS256` with the
access secret. -/
def GenerateAccessToken (userID username email secret : String)
    (duration : Int) (now : Int) (jti : String) : JWT :=
  let payload : Payload :=
    { userID := userID, username := username, email := email, subject := ""
      expiresAt := some (now + duration), notBefore := some now
      issuedAt := some now, jti := jti }
  { alg := .HS256, payload := payload, sig := signPayload .HS256 secret payload }

/-- `GenerateRefreshToken` from `pkg/utils/jwt.go`: registered claims
only, `sub = userID`, `exp = now+duration`, `iat = now`, no `nbf`,
fresh `jti`, signed `HS256` with the refresh secret. -/
def GenerateRefreshToken (userID secret : String) (duration : Int)
    (now : Int) (jti : String) : JWT :=
  let payload : Payload :=
    { userID := "", username := "", email := "", subject := userID
      expiresAt := some (now + duration), notBefore := none
      issuedAt := some now, jti := jti }
  { alg := .HS256, payload := payload, sig := signPayload .HS256 secret payload }

/-- The key function passed by both validators in `pkg/utils/jwt.go`:
reject any signing method outside the HMAC family, otherwise hand back
the secret. -/
def hmacKeyfunc (secret : String) (t : JWT) : Except String String :=
  if t.alg.isHMAC then .ok secret
  else .error ("método de assinatura inesperado: " ++ t.alg.name)

/-- `ValidateAccessToken` from `pkg/utils/jwt.go`: parse with the
HMAC-pinning key function, wrap any parse error, return the claims. -/
def ValidateAccessToken (tokenString : TokenString) (secret : String)
    (now : Int) : Except String Payload :=
  match parseWithClaims tokenString (hmacKeyfunc secret) now with
  | .error e => .error ("erro ao parsear token: " ++ e)
  | .ok t => .ok t.payload

/-- `ValidateRefreshToken` from `pkg/utils/jwt.go`: parse with the
HMAC-pinning key function, wrap any parse error, return the subject
(the user id). -/
def ValidateRefreshToken (tokenString : TokenString) (secret : String)
    (now : Int) : Except String String :=
  match parseWithClaims tokenString (hmacKeyfunc secret) now with
  | .error e => .error ("erro ao parsear refresh token: " ++ e)
  | .ok t => .ok t.payload.subject

/-! ## Password hashing (`pkg/utils/password.go` plus a spec-model of bcrypt) -/

/-- Modelled from the spec: a bcrypt digest, which is not part of the
sources (`golang.org/x/crypto/bcrypt`).  Per the spec the salt and cost
are embedded in the output and the derived key is recomputable from the
password and salt; collisions are ignored ("practical collision
improbability"), so the derived key is the password juxtaposed with the
salt. -/
structure BcryptDigest where
  cost : Nat
  salt : String
  key : List Char
deriving DecidableEq, Repr

/-- Modelled from the spec: `bcrypt.GenerateFromPassword` at a given
cost, with the salt drawn from the caller's entropy. -/
def bcryptGenerate (cost : Nat) (salt password : String) : BcryptDigest :=
  { cost := cost, salt := salt, key := password.data ++ salt.data }

/-- Modelled from the spec: `bcrypt.CompareHashAndPassword` recomputes
the key with the embedded salt and cost and compares. -/
def bcryptCompare (digest : BcryptDigest) (password : String) : Bool :=
  (bcryptGenerate digest.cost digest.salt password).key == digest.key

/-- `HashPassword` from `pkg/utils/password.go`: bcrypt at cost 12; the
underlying cryptographic/resource failure of the library is not
modelled, so the call always succeeds. -/
def HashPassword (salt password : String) : Except String BcryptDigest :=
  .ok (bcryptGenerate 12 salt password)

/-- `CheckPassword` from `pkg/utils/password.go`: true exactly when the
comparison succeeds; mismatch is the boolean `false`, never an error. -/
def CheckPassword (password : String) (hash : BcryptDigest) : Bool :=
  bcryptCompare hash password

/-! ## Database state and the sqlc repository (modelled from the spec) -/

/-- A row of the `users` table (spec §3 Account): id, unique username,
unique email, opaque password hash, creation timestamp. -/
structure UserRow where
  id : String
  username : String
  email : String
  passwordHash : BcryptDigest
  createdAt : Int
deriving DecidableEq, Repr

/-- A row of the `refresh_tokens` table (spec §3 RefreshSession): owning
account, the exact signed token string, expiry, creation timestamp. -/
structure RefreshTokenRow where
  userID : String
  token : TokenString
  expiresAt : Int
deriving DecidableEq, Repr

/-- The persistent store: accounts and refresh sessions. -/
structure DBState where
  users : List UserRow
  refreshTokens : List RefreshTokenRow
deriving DecidableEq, Repr

/-- Database errors as matched by the service: the `pgx.ErrNoRows`
sentinel versus any other storage error. -/
inductive DBErr where
  | noRows
  | other (msg : String)
deriving DecidableEq, Repr

/-- The message of a database error (`err.Error()`); `pgx.ErrNoRows`
prints "no rows in result set". -/
def DBErr.msg : DBErr → String
  | .noRows => "no rows in result set"
  | .other m => m

/-- Modelled from the spec: the sqlc query `GetUserByEmail` (not in the
sources) — row with that email or `pgx.ErrNoRows`. -/
def GetUserByEmail (st : DBState) (email : String) : Except DBErr UserRow :=
  match st.users.find? (fun u => u.email == email) with
  | some u => .ok u
  | none => .error .noRows

/-- Modelled from the spec: the sqlc query `GetUserByUsername` (not in
the sources). -/
def GetUserByUsername (st : DBState) (username : String) : Except DBErr UserRow :=
  match st.users.find? (fun u => u.username == username) with
  | some u => .ok u
  | none => .error .noRows

/-- Modelled from the spec: the sqlc query `GetUserByID` (not in the
sources). -/
def GetUserByID (st : DBState) (id : String) : Except DBErr UserRow :=
  match st.users.find? (fun u => u.id == id) with
  | some u => .ok u
  | none => .error .noRows

/-- Modelled from the spec: the sqlc query `CreateUser` (not in the
sources); the storage layer enforces the uniqueness constraints on
username and email (spec §3 invariants), surfacing a violation as a
non-`noRows` storage error. -/
def CreateUser (st : DBState) (id username email : String)
    (passwordHash : BcryptDigest) (now : Int) : Except DBErr (UserRow × DBState) :=
  if st.users.any (fun u => u.username == username || u.email == email) then
    .error (.other "duplicate key value violates unique constraint")
  else
    let u : UserRow := { id := id, username := username, email := email
                         passwordHash := passwordHash, createdAt := now }
    .ok (u, { st with users := st.users ++ [u] })

/-- Modelled from the spec: the sqlc query `GetRefreshToken` (not in the
sources) — exact string match on the token value, `pgx.ErrNoRows` when
absent. -/
def GetRefreshToken (st : DBState) (token : TokenString) : Except DBErr RefreshTokenRow :=
  match st.refreshTokens.find? (fun r => r.token == token) with
  | some r => .ok r
  | none => .error .noRows

/-- Modelled from the spec: the sqlc query `CreateRefreshToken` (not in
the sources) — insert one row. -/
def CreateRefreshToken (st : DBState) (userID : String) (token : TokenString)
    (expiresAt : Int) : Except DBErr (RefreshTokenRow × DBState) :=
  let r : RefreshTokenRow := { userID := userID, token := token, expiresAt := expiresAt }
  .ok (r, { st with refreshTokens := st.refreshTokens ++ [r] })

/-- Modelled from the spec: the sqlc `:exec` query `DeleteRefreshToken`
(not in the sources) — SQL `DELETE` of the rows whose token matches;
deleting zero rows is not an error under `exec` semantics. -/
def DeleteRefreshToken (st : DBState) (token : TokenString) : Except String DBState :=
  .ok { st with refreshTokens := st.refreshTokens.filter (fun r => !(r.token == token)) }

/-! ## Service types (`pkg/types`) -/

/-- `types.RegisterInput`. -/
structure RegisterInput where
  username : String
  email : String
  password : String
deriving DecidableEq, Repr

/-- `types.LoginInput`. -/
structure LoginInput where
  email : String
  password : String
deriving DecidableEq, Repr

/-- `types.TokenPair`. -/
structure TokenPair where
  accessToken : TokenString
  refreshToken : TokenString
deriving DecidableEq, Repr

/-- `types.UserResponse` (no password hash; `CreatedAt` kept as the raw
instant, RFC3339 formatting not modelled). -/
structure UserResponse where
  id : String
  username : String
  email : String
  createdAt : Int
deriving DecidableEq, Repr

/-- `types.AuthResponse`. -/
structure AuthResponse where
  user : UserResponse
  tokens : TokenPair
deriving DecidableEq, Repr

/-- JWT configuration (`config.Config.JWT`): two secrets, two TTLs. -/
structure Config where
  accessSecret : String
  refreshSecret : String
  accessExpiration : Int
  refreshExpiration : Int
deriving DecidableEq, Repr

/-- The random inputs a `Register`/`Login` call draws: the database-side
fresh user id, the two token ids, the bcrypt salt. -/
structure Entropy where
  userId : String
  jtiAccess : String
  jtiRefresh : String
  salt : String
deriving DecidableEq, Repr

/-! ## The handwritten substring helper (`auth_service.go` lines 123-139) -/

/-- Go slice expression `s[i:j]` over a byte string, as a `List Char`. -/
def goSlice (s : List Char) (i j : Nat) : List Char :=
  (s.drop i).take (j - i)

/-- `containsMiddle` from `auth_service.go`: scan every window of width
`len(substr)` (`for i := 0; i <= len(s)-len(substr); i++`). -/
def containsMiddle (s substr : List Char) : Bool :=
  (List.range (s.length - substr.length + 1)).any
    (fun i => goSlice s i (i + substr.length) == substr)

/-- `contains` from `auth_service.go`, translated clause by clause:
non-empty operands, `s` at least as long as `substr`, `s != substr`, and
then match at the start, at the end, or (strictly inside a longer `s`)
somewhere in the middle. -/
def contains (s substr : List Char) : Bool :=
  decide (0 < s.length) && decide (0 < substr.length) &&
  decide (substr.length ≤ s.length) && !(s == substr) &&
  (goSlice s 0 substr.length == substr ||
   goSlice s (s.length - substr.length) s.length == substr ||
   (decide (substr.length < s.length) && containsMiddle s substr))

/-! ## AuthService (`internal/service/auth_service.go`) -/

/-- `validateRegisterInput`: the shape checks of `Register`, in source
order, returning the first failing check's message. -/
def validateRegisterInput (input : RegisterInput) : Option String :=
  if input.username = "" then some "username é obrigatório"
  else if input.username.length < 3 ∨ 50 < input.username.length then
    some "username deve ter entre 3 e 50 caracteres"
  else if input.email = "" then some "email é obrigatório"
  else if !(contains input.email.data ['@']) ∨ !(contains input.email.data ['.']) then
    some "email inválido"
  else if input.password = "" then some "senha é obrigatória"
  else if input.password.length < 6 then
    some "senha deve ter no mínimo 6 caracteres"
  else none

/-- `generateTokens`: an access token and a refresh token for the user;
signing-library failures are not modelled, so the pair is always built. -/
def generateTokens (cfg : Config) (now : Int) (jtiA jtiR : String)
    (userID username email : String) : TokenPair :=
  { accessToken :=
      .tok (GenerateAccessToken userID username email cfg.accessSecret
        cfg.accessExpiration now jtiA)
    refreshToken :=
      .tok (GenerateRefreshToken userID cfg.refreshSecret
        cfg.refreshExpiration now jtiR) }

/-- `saveRefreshToken`: persist the refresh session with expiry
`now + refreshExpiration`. -/
def saveRefreshToken (st : DBState) (userID : String) (token : TokenString)
    (refreshExpiration : Int) (now : Int) : Except String DBState :=
  match CreateRefreshToken st userID token (now + refreshExpiration) with
  | .error e => .error e.msg
  | .ok (_, st') => .ok st'

/-- The `types.UserResponse` view of a user row (password hash dropped). -/
def userResponseOf (u : UserRow) : UserResponse :=
  { id := u.id, username := u.username, email := u.email, createdAt := u.createdAt }

/-- `Register`: validate, pre-check email then username (only
`pgx.ErrNoRows` lets the flow continue), hash, insert, mint tokens,
persist the refresh session, answer.  The pair carries the resulting
database state alongside the response or error message. -/
def Register (cfg : Config) (ent : Entropy) (now : Int)
    (input : RegisterInput) (st : DBState) :
    Except String AuthResponse × DBState :=
  match validateRegisterInput input with
  | some e => (.error e, st)
  | none =>
    match GetUserByEmail st input.email with
    | .ok _ => (.error "email já cadastrado", st)
    | .error (.other m) => (.error ("erro ao verificar email: " ++ m), st)
    | .error .noRows =>
      match GetUserByUsername st input.username with
      | .ok _ => (.error "username já cadastrado", st)
      | .error (.other m) => (.error ("erro ao verificar username: " ++ m), st)
      | .error .noRows =>
        match HashPassword ent.salt input.password with
        | .error m => (.error ("erro ao criar hash da senha: " ++ m), st)
        | .ok passwordHash =>
          match CreateUser st ent.userId input.username input.email passwordHash now with
          | .error e => (.error ("erro ao criar usuário: " ++ e.msg), st)
          | .ok (user, st1) =>
            let tokens := generateTokens cfg now ent.jtiAccess ent.jtiRefresh
              user.id user.username user.email
            match saveRefreshToken st1 user.id tokens.refreshToken
                cfg.refreshExpiration now with
            | .error m => (.error ("erro ao salvar refresh token: " ++ m), st1)
            | .ok st2 =>
              (.ok { user := userResponseOf user, tokens := tokens }, st2)

/-- `Login`: reject empty input, look up by email (`pgx.ErrNoRows` and a
failed password check both answer "credenciais inválidas"), mint and
persist a new token pair. -/
def Login (cfg : Config) (ent : Entropy) (now : Int)
    (input : LoginInput) (st : DBState) :
    Except String AuthResponse × DBState :=
  if input.email = "" ∨ input.password = "" then
    (.error "email e senha são obrigatórios", st)
  else
    match GetUserByEmail st input.email with
    | .error .noRows => (.error "credenciais inválidas", st)
    | .error (.other m) => (.error ("erro ao buscar usuário: " ++ m), st)
    | .ok user =>
      if !(CheckPassword input.password user.passwordHash) then
        (.error "credenciais inválidas", st)
      else
        let tokens := generateTokens cfg now ent.jtiAccess ent.jtiRefresh
          user.id user.username user.email
        match saveRefreshToken st user.id tokens.refreshToken
            cfg.refreshExpiration now with
        | .error m => (.error ("erro ao salvar refresh token: " ++ m), st)
        | .ok st' =>
          (.ok { user := userResponseOf user, tokens := tokens }, st')

/-- `RefreshToken`: reject empty input, cryptographically validate the
refresh token (wrapping the verification error), require the exact token
string to still be stored (the revocation check), load the account, mint
a fresh access token and answer it paired with the stored token string.
The UUID round-trip of the extracted subject (`userUUID.Scan`) is the
identity on the modelled string ids. -/
def RefreshToken (cfg : Config) (jti : String) (now : Int)
    (input : TokenString) (st : DBState) :
    Except String TokenPair × DBState :=
  if input.isEmptyStr then (.error "refresh token é obrigatório", st)
  else
    match ValidateRefreshToken input cfg.refreshSecret now with
    | .error e => (.error ("refresh token inválido: " ++ e), st)
    | .ok userID =>
      match GetRefreshToken st input with
      | .error .noRows => (.error "refresh token inválido ou expirado", st)
      | .error (.other m) => (.error ("erro ao buscar refresh token: " ++ m), st)
      | .ok tokenRecord =>
        match GetUserByID st userID with
        | .error e => (.error ("usuário não encontrado: " ++ e.msg), st)
        | .ok user =>
          let accessToken := GenerateAccessToken user.id user.username user.email
            cfg.accessSecret cfg.accessExpiration now jti
          (.ok { accessToken := .tok accessToken, refreshToken := tokenRecord.token }, st)

/-- `Logout`: reject empty input, delete the matching store rows. -/
def Logout (refreshToken : TokenString) (st : DBState) :
    Except String Unit × DBState :=
  if refreshToken.isEmptyStr then (.error "refresh token é obrigatório", st)
  else
    match DeleteRefreshToken st refreshToken with
    | .error m => (.error ("erro ao revogar token: " ++ m), st)
    | .ok st' => (.ok (), st')

/-! ## `Register` against an arbitrary repository

`AuthService` calls the repository through an interface whose answers
the database provides at run time; under concurrency the insert can hit
the uniqueness constraint even though both pre-checks answered
`pgx.ErrNoRows`.  `RegisterCalls` records the repository's and the
helpers' answers to the one call sequence `Register` performs, and
`RegisterWithCalls` is the same source control flow over those
answers. -/
structure RegisterCalls where
  getUserByEmail : Except DBErr UserRow
  getUserByUsername : Except DBErr UserRow
  hashPassword : Except String BcryptDigest
  createUser : Except DBErr UserRow
  generateTokens : Except String TokenPair
  createRefreshToken : Except String Unit

/-- `Register` from `auth_service.go` with every external answer explicit
(same control flow and error wrapping as `Register` above). -/
def RegisterWithCalls (c : RegisterCalls) (input : RegisterInput) :
    Except String (UserRow × TokenPair) :=
  match validateRegisterInput input with
  | some e => .error e
  | none =>
    match c.getUserByEmail with
    | .ok _ => .error "email já cadastrado"
    | .error (.other m) => .error ("erro ao verificar email: " ++ m)
    | .error .noRows =>
      match c.getUserByUsername with
      | .ok _ => .error "username já cadastrado"
      | .error (.other m) => .error ("erro ao verificar username: " ++ m)
      | .error .noRows =>
        match c.hashPassword with
        | .error m => .error ("erro ao criar hash da senha: " ++ m)
        | .ok _ =>
          match c.createUser with
          | .error e => .error ("erro ao criar usuário: " ++ e.msg)
          | .ok user =>
            match c.generateTokens with
            | .error m => .error ("erro ao gerar tokens: " ++ m)
            | .ok tokens =>
              match c.createRefreshToken with
              | .error m => .error ("erro ao salvar refresh token: " ++ m)
              | .ok _ => .ok (user, tokens)

/-! ## Spec-side predicates -/

/-- The spec's notion "substr occurs as a substring of s". -/
def IsSubstrOf (substr s : List Char) : Prop :=
  ∃ pre post, s = pre ++ substr ++ post

/-- The spec's malformed-input predicate for `Register` (claim C5):
username empty, shorter than 3 or longer than 50; email lacking "@" or
lacking "."; password empty or shorter than 6. -/
def MalformedRegister (input : RegisterInput) : Prop :=
  input.username = "" ∨ input.username.length < 3 ∨ 50 < input.username.length ∨
  ¬ IsSubstrOf ['@'] input.email.data ∨ ¬ IsSubstrOf ['.'] input.email.data ∨
  input.password = "" ∨ input.password.length < 6

/-! ## Lemmas about the handwritten substring helper -/

/-- The window of a concatenation at the offset of its middle part is
that middle part. -/
lemma goSlice_append (pre substr post : List Char) :
    goSlice (pre ++ substr ++ post) pre.length (pre.length + substr.length) = substr := by
  simp only [goSlice, Nat.add_sub_cancel_left, List.append_assoc, List.drop_left,
    List.take_left]

/-- A matching window exhibits a substring occurrence. -/
lemma isSubstrOf_of_goSlice {s substr : List Char} {i : Nat}
    (h : goSlice s i (i + substr.length) = substr) : IsSubstrOf substr s := by
  refine ⟨s.take i, (s.drop i).drop substr.length, ?_⟩
  have h' : (s.drop i).take substr.length = substr := by
    simpa [goSlice, Nat.add_sub_cancel_left] using h
  calc s = s.take i ++ s.drop i := (List.take_append_drop i s).symm
    _ = s.take i ++ ((s.drop i).take substr.length ++ (s.drop i).drop substr.length) := by
        rw [List.take_append_drop substr.length (s.drop i)]
    _ = s.take i ++ substr ++ (s.drop i).drop substr.length := by
        rw [h', List.append_assoc]

/-- The scan of `containsMiddle` succeeds exactly when some window
matches. -/
lemma containsMiddle_iff (s substr : List Char) :
    containsMiddle s substr = true ↔
      ∃ i, i ≤ s.length - substr.length ∧ goSlice s i (i + substr.length) = substr := by
  simp only [containsMiddle, List.any_eq_true, List.mem_range, beq_iff_eq,
    Nat.lt_succ_iff]

/-- Characterisation of the handwritten `contains`: it answers `true`
exactly for a non-empty pattern occurring as a substring of a string it
does not equal. -/
lemma contains_iff (s substr : List Char) :
    contains s substr = true ↔ substr ≠ [] ∧ s ≠ substr ∧ IsSubstrOf substr s := by
  simp only [contains, Bool.and_eq_true, Bool.or_eq_true, decide_eq_true_eq,
    Bool.not_eq_true', beq_eq_false_iff_ne, ne_eq, beq_iff_eq]
  constructor
  · rintro ⟨⟨⟨⟨h1, h2⟩, h3⟩, hne⟩, hdisj⟩
    refine ⟨List.length_pos.mp h2, hne, ?_⟩
    rcases hdisj with (hpre | hsuf) | ⟨_, hmid⟩
    · exact isSubstrOf_of_goSlice (i := 0) (by simpa [goSlice] using hpre)
    · refine isSubstrOf_of_goSlice (i := s.length - substr.length) ?_
      have : s.length - substr.length + substr.length = s.length := by omega
      rw [this]; exact hsuf
    · obtain ⟨i, _, hi⟩ := (containsMiddle_iff s substr).mp hmid
      exact isSubstrOf_of_goSlice hi
  · rintro ⟨hnil, hne, pre, post, heq⟩
    have hsublen : 0 < substr.length := List.length_pos.mpr hnil
    have hlen : s.length = pre.length + substr.length + post.length := by
      subst heq; simp [List.length_append]; omega
    have hlt : substr.length < s.length := by
      rcases Nat.lt_or_ge substr.length s.length with h | h
      · exact h
      · exfalso
        have hpre0 : pre.length = 0 := by omega
        have hpost0 : post.length = 0 := by omega
        rw [List.length_eq_zero] at hpre0 hpost0
        subst hpre0; subst hpost0
        simp at heq
        exact hne heq
    refine ⟨⟨⟨⟨by omega, hsublen⟩, by omega⟩, hne⟩, ?_⟩
    refine Or.inr ⟨hlt, ?_⟩
    refine (containsMiddle_iff s substr).mpr ⟨pre.length, by omega, ?_⟩
    rw [heq]; exact goSlice_append pre substr post

/-- A single-character pattern occurs as a substring exactly when the
character is a member. -/
lemma isSubstrOf_single_iff (c : Char) (l : List Char) :
    IsSubstrOf [c] l ↔ c ∈ l := by
  constructor
  · rintro ⟨pre, post, rfl⟩; simp
  · intro h
    obtain ⟨pre, post, rfl⟩ := List.append_of_mem h
    exact ⟨pre, post, by simp⟩

/-- `contains` on a single-character pattern: membership, unless the
string is exactly that character. -/
lemma contains_single_iff (l : List Char) (c : Char) :
    contains l [c] = true ↔ c ∈ l ∧ l ≠ [c] := by
  rw [contains_iff]
  simp [isSubstrOf_single_iff, and_comm]

/-! ## Claim C10: the `contains` helper versus plain substring search -/

/-- Claim C10, counterexample: `contains` is not plain substring search — on a
string equal to the (non-empty) pattern it answers `false` although the
pattern occurs as a substring (the `s != substr` clause excludes it). -/
theorem contains_self_refutes :
    contains ['a'] ['a'] = false ∧ (['a'] : List Char) ≠ [] ∧ IsSubstrOf ['a'] ['a'] :=
  ⟨by decide, by decide, [], [], by simp⟩

/-- Claim C10, amended: for every string `s` and non-empty pattern `substr`,
`contains s substr` answers `true` exactly when `substr` occurs as a
substring of `s` and `s` is not equal to `substr`. -/
theorem contains_characterization (s substr : List Char) :
    contains s substr = true ↔ substr ≠ [] ∧ s ≠ substr ∧ IsSubstrOf substr s :=
  contains_iff s substr

/-! ## Claim C5: `Register` input validation -/

/-- The validation outcome of `validateRegisterInput` matches the spec's
shape rules exactly.  The `s != substr` quirk of `contains` is invisible
here: an email equal to `"@"` or to `"."` fails the other character's
check anyway. -/
lemma validateRegisterInput_isSome_iff (input : RegisterInput) :
    (validateRegisterInput input).isSome ↔ MalformedRegister input := by
  unfold validateRegisterInput MalformedRegister
  split_ifs with h1 h2 h3 h4 h5 h6
  · simp only [Option.isSome_some, true_iff]
    exact Or.inl h1
  · simp only [Option.isSome_some, true_iff]
    rcases h2 with h2 | h2
    · exact Or.inr (Or.inl h2)
    · exact Or.inr (Or.inr (Or.inl h2))
  · simp only [Option.isSome_some, true_iff]
    refine Or.inr (Or.inr (Or.inr (Or.inl ?_)))
    rw [h3, isSubstrOf_single_iff]
    decide
  · simp only [Option.isSome_some, true_iff]
    simp only [Bool.not_eq_true'] at h4
    rcases h4 with h4 | h4
    · rw [← Bool.not_eq_true, contains_single_iff] at h4
      rcases Classical.not_and_iff_or_not_not.mp h4 with hmem | hself
      · exact Or.inr (Or.inr (Or.inr (Or.inl (by rw [isSubstrOf_single_iff]; exact hmem))))
      · refine Or.inr (Or.inr (Or.inr (Or.inr (Or.inl ?_))))
        rw [isSubstrOf_single_iff, Classical.not_not.mp hself]
        decide
    · rw [← Bool.not_eq_true, contains_single_iff] at h4
      rcases Classical.not_and_iff_or_not_not.mp h4 with hmem | hself
      · exact Or.inr (Or.inr (Or.inr (Or.inr (Or.inl
          (by rw [isSubstrOf_single_iff]; exact hmem)))))
      · refine Or.inr (Or.inr (Or.inr (Or.inl ?_)))
        rw [isSubstrOf_single_iff, Classical.not_not.mp hself]
        decide
  · simp only [Option.isSome_some, true_iff]
    exact Or.inr (Or.inr (Or.inr (Or.inr (Or.inr (Or.inl h5)))))
  · simp only [Option.isSome_some, true_iff]
    exact Or.inr (Or.inr (Or.inr (Or.inr (Or.inr (Or.inr h6)))))
  · simp only [Option.isSome_none, Bool.false_eq_true, false_iff]
    push_neg at h2
    rintro (h | h | h | h | h | h | h)
    · exact h1 h
    · omega
    · omega
    · rcases not_or.mp h4 with ⟨hc, _⟩
      simp only [Bool.not_eq_true', Bool.not_eq_false] at hc
      obtain ⟨hmem, _⟩ := (contains_single_iff _ _).mp hc
      exact h ((isSubstrOf_single_iff _ _).mpr hmem)
    · rcases not_or.mp h4 with ⟨_, hc⟩
      simp only [Bool.not_eq_true', Bool.not_eq_false] at hc
      obtain ⟨hmem, _⟩ := (contains_single_iff _ _).mp hc
      exact h ((isSubstrOf_single_iff _ _).mpr hmem)
    · exact h5 h
    · omega

/-- Claim C5: `Register` answers a validation error, reading and writing
nothing in the store, exactly on the malformed inputs of the spec's
shape rules: username empty, shorter than 3, or longer than 50; email
lacking "@" or lacking "."; password empty or shorter than 6. -/
theorem register_validates_shape (cfg : Config) (ent : Entropy) (now : Int)
    (input : RegisterInput) (st : DBState) :
    ((validateRegisterInput input).isSome ↔ MalformedRegister input) ∧
    ∀ e, validateRegisterInput input = some e →
      Register cfg ent now input st = (Except.error e, st) := by
  refine ⟨validateRegisterInput_isSome_iff input, ?_⟩
  intro e he
  unfold Register
  rw [he]

/-- Claim C5, witness: a too-short username is rejected with the validation
error and the store is untouched. -/
theorem register_validates_shape_witness :
    Register ⟨"a", "r", 3600, 604800⟩ ⟨"u", "ja", "jr", "s"⟩ 0
        ⟨"al", "a@b.c", "secret123"⟩ ⟨[], []⟩ =
      (Except.error "username deve ter entre 3 e 50 caracteres", ⟨[], []⟩) :=
  (register_validates_shape ⟨"a", "r", 3600, 604800⟩ ⟨"u", "ja", "jr", "s"⟩ 0
    ⟨"al", "a@b.c", "secret123"⟩ ⟨[], []⟩).2 _ (by decide)

/-! ## Concrete fixtures for the witness theorems -/

/-- A concrete configuration. -/
def cfgW : Config := ⟨"access-secret", "refresh-secret", 3600, 604800⟩

/-- Claims of a concrete refresh token for account `user-1`, expiring at
instant 1000. -/
def payloadW : Payload := ⟨"", "", "", "user-1", some 1000, none, some 0, "jti-1"⟩

/-- A concrete refresh token correctly signed with the refresh secret. -/
def refreshW : JWT := ⟨.HS256, payloadW, signPayload .HS256 "refresh-secret" payloadW⟩

/-- A concrete stored account. -/
def userW : UserRow :=
  ⟨"user-1", "alice", "alice@example.com", bcryptGenerate 12 "saltW" "secret123", 0⟩

/-- A concrete store: one account, one live refresh session. -/
def stW : DBState := ⟨[userW], [⟨"user-1", .tok refreshW, 1000⟩]⟩

/-! ## Claim C1: Logout revokes the refresh token -/

/-- Nothing surviving the deletion filter still matches the token. -/
lemma find?_filter_ne_none (l : List RefreshTokenRow) (t : TokenString) :
    (l.filter (fun r => !(r.token == t))).find? (fun r => r.token == t) = none := by
  rw [List.find?_eq_none]
  intro x hx
  have hmem := (List.mem_filter.mp hx).2
  simp only [Bool.not_eq_true'] at hmem
  simp [hmem]

/-- Claim C1: after a successful `Logout t`, a `RefreshToken t` call fails —
whatever the token's cryptographic state — because the store row is
gone; no token pair is issued and the store stays as `Logout` left it. -/
theorem logout_invalidates_refresh (cfg : Config) (jti : String) (now : Int)
    (t : TokenString) (st st' : DBState)
    (h : Logout t st = (Except.ok (), st')) :
    ∃ msg, RefreshToken cfg jti now t st' = (Except.error msg, st') := by
  unfold Logout at h
  cases he : t.isEmptyStr with
  | true => rw [he] at h; simp at h
  | false =>
    rw [he] at h
    simp only [Bool.false_eq_true, if_false, DeleteRefreshToken, Prod.mk.injEq] at h
    cases hv : ValidateRefreshToken t cfg.refreshSecret now with
    | error e =>
      exact ⟨"refresh token inválido: " ++ e, by simp [RefreshToken, he, hv]⟩
    | ok uid =>
      refine ⟨"refresh token inválido ou expirado", ?_⟩
      have hfind : GetRefreshToken st' t = .error .noRows := by
        unfold GetRefreshToken
        rw [← h.2]
        rw [find?_filter_ne_none]
      simp [RefreshToken, he, hv, hfind]

/-- Claim C1, witness: logging out the concrete live session makes the
subsequent refresh fail. -/
theorem logout_invalidates_refresh_witness :
    ∃ msg, RefreshToken cfgW "jti-2" 500 (.tok refreshW)
        (Logout (.tok refreshW) stW).2 = (Except.error msg, (Logout (.tok refreshW) stW).2) :=
  logout_invalidates_refresh cfgW "jti-2" 500 (.tok refreshW) stW
    (Logout (.tok refreshW) stW).2 (by decide)

/-! ## Claim C3: unknown account and wrong password are indistinguishable -/

/-- Claim C3: a `Login` with an email no account has and a `Login` with an
existing account's email but a password failing verification both answer
the identical error "credenciais inválidas". -/
theorem login_error_indistinguishable (cfg : Config) (ent1 ent2 : Entropy)
    (now1 now2 : Int) (st : DBState) (in1 in2 : LoginInput)
    (h1e : in1.email ≠ "") (h1p : in1.password ≠ "")
    (h2e : in2.email ≠ "") (h2p : in2.password ≠ "")
    (hnone : GetUserByEmail st in1.email = .error .noRows)
    (hwrong : ∃ u, GetUserByEmail st in2.email = .ok u ∧
      CheckPassword in2.password u.passwordHash = false) :
    (Login cfg ent1 now1 in1 st).1 = Except.error "credenciais inválidas" ∧
    (Login cfg ent2 now2 in2 st).1 = Except.error "credenciais inválidas" := by
  obtain ⟨u, hu, hcp⟩ := hwrong
  constructor
  · simp [Login, h1e, h1p, hnone]
  · simp [Login, h2e, h2p, hu, hcp]

/-- Claim C3, witness: "nobody@example.com" with the right password and
"alice@example.com" with a wrong password fail identically on the
concrete store. -/
theorem login_error_indistinguishable_witness :
    (Login cfgW ⟨"u", "ja", "jr", "s"⟩ 0 ⟨"nobody@example.com", "secret123"⟩ stW).1 =
      Except.error "credenciais inválidas" ∧
    (Login cfgW ⟨"u", "ja", "jr", "s"⟩ 0 ⟨"alice@example.com", "wrong1"⟩ stW).1 =
      Except.error "credenciais inválidas" :=
  login_error_indistinguishable cfgW ⟨"u", "ja", "jr", "s"⟩ ⟨"u", "ja", "jr", "s"⟩ 0 0 stW
    ⟨"nobody@example.com", "secret123"⟩ ⟨"alice@example.com", "wrong1"⟩
    (by decide) (by decide) (by decide) (by decide) (by decide)
    ⟨userW, by decide, by decide⟩

/-! ## Claim C7: refresh does not rotate and does not write -/

/-- A stored row answered by the exact-match lookup carries the looked-up
token string. -/
lemma GetRefreshToken_token_eq {st : DBState} {t : TokenString} {r : RefreshTokenRow}
    (h : GetRefreshToken st t = .ok r) : r.token = t := by
  unfold GetRefreshToken at h
  cases hf : st.refreshTokens.find? (fun r => r.token == t) with
  | none => rw [hf] at h; simp at h
  | some r' =>
    rw [hf] at h
    have hp := List.find?_some hf
    simp only [Except.ok.injEq] at h
    subst h
    exact beq_iff_eq.mp hp

/-- Claim C7: a successful `RefreshToken` call leaves the store exactly as it
was (no rotation, no deletion, no insertion), answers the same refresh
token string it was given, and the only fresh datum is the newly minted
access token for the loaded account. -/
theorem refresh_preserves_store (cfg : Config) (jti : String) (now : Int)
    (t : TokenString) (st st' : DBState) (pair : TokenPair)
    (h : RefreshToken cfg jti now t st = (Except.ok pair, st')) :
    st' = st ∧ pair.refreshToken = t ∧
    ∃ uid user, ValidateRefreshToken t cfg.refreshSecret now = .ok uid ∧
      GetUserByID st uid = .ok user ∧
      pair.accessToken = .tok (GenerateAccessToken user.id user.username user.email
        cfg.accessSecret cfg.accessExpiration now jti) := by
  unfold RefreshToken at h
  cases he : t.isEmptyStr with
  | true => rw [he] at h; simp at h
  | false =>
    rw [he] at h
    simp only [Bool.false_eq_true, if_false] at h
    cases hv : ValidateRefreshToken t cfg.refreshSecret now with
    | error e => rw [hv] at h; simp at h
    | ok uid =>
      rw [hv] at h
      dsimp only at h
      cases hg : GetRefreshToken st t with
      | error e => rw [hg] at h; cases e <;> simp at h
      | ok tokenRecord =>
        rw [hg] at h
        dsimp only at h
        cases hu : GetUserByID st uid with
        | error e => rw [hu] at h; simp at h
        | ok user =>
          rw [hu] at h
          dsimp only at h
          simp only [Prod.mk.injEq, Except.ok.injEq] at h
          refine ⟨h.2.symm, ?_, uid, user, rfl, hu, ?_⟩
          · rw [← h.1]
            exact GetRefreshToken_token_eq hg
          · rw [← h.1]

/-- Claim C7, witness: the concrete refresh succeeds, answers the stored token
string and leaves the store untouched. -/
theorem refresh_preserves_store_witness :
    (RefreshToken cfgW "jti-2" 500 (.tok refreshW) stW).2 = stW ∧
    ∃ pair, (RefreshToken cfgW "jti-2" 500 (.tok refreshW) stW).1 = Except.ok pair ∧
      pair.refreshToken = .tok refreshW := by
  have h := refresh_preserves_store cfgW "jti-2" 500 (.tok refreshW) stW
    (RefreshToken cfgW "jti-2" 500 (.tok refreshW) stW).2
    { accessToken := .tok (GenerateAccessToken "user-1" "alice" "alice@example.com"
        "access-secret" 3600 500 "jti-2")
      refreshToken := .tok refreshW } (by decide)
  exact ⟨h.1, _, by decide, h.2.1⟩

/-! ## Claim C9: logout of an unknown token succeeds -/

/-- Claim C9: for a non-empty token with no matching store row, `Logout`
answers success (and the store is unchanged); an unknown or
already-logged-out token is not an error. -/
theorem logout_unknown_token_succeeds (t : TokenString) (st : DBState)
    (hne : t.isEmptyStr = false)
    (habs : ∀ r ∈ st.refreshTokens, r.token ≠ t) :
    Logout t st = (Except.ok (), st) := by
  obtain ⟨us, rs⟩ := st
  unfold Logout
  rw [hne]
  simp only [Bool.false_eq_true, if_false, DeleteRefreshToken]
  have hself : rs.filter (fun r => !(r.token == t)) = rs := by
    rw [List.filter_eq_self]
    intro a ha
    simp [habs a ha]
  rw [hself]

/-- Claim C9, witness: logging out a validly signed token that was never stored
(or already removed) succeeds on the concrete store. -/
theorem logout_unknown_token_succeeds_witness :
    Logout (.str "never-stored") stW = (Except.ok (), stW) :=
  logout_unknown_token_succeeds (.str "never-stored") stW (by decide) (by decide)

/-! ## Claim C2: a uniqueness violation on insert is not the Conflict error -/

/-- The storage answer of a concurrent-duplicate scenario: both
pre-checks found nothing, the insert then hit the uniqueness
constraint. -/
def callsDup : RegisterCalls :=
  { getUserByEmail := .error .noRows
    getUserByUsername := .error .noRows
    hashPassword := .ok (bcryptGenerate 12 "s" "secret123")
    createUser := .error (.other "duplicate key value violates unique constraint")
    generateTokens := .error "unreached"
    createRefreshToken := .ok () }

/-- Claim C2, counterexample: when the account insert fails with the storage
uniqueness violation after both pre-checks passed, `Register` answers
the generic creation-failure error, not the Conflict error of either
pre-check. -/
theorem register_insert_conflict_counterexample :
    RegisterWithCalls callsDup ⟨"alice", "alice@example.com", "secret123"⟩ =
      Except.error
        "erro ao criar usuário: duplicate key value violates unique constraint" ∧
    ("erro ao criar usuário: duplicate key value violates unique constraint" : String) ≠
      "email já cadastrado" ∧
    ("erro ao criar usuário: duplicate key value violates unique constraint" : String) ≠
      "username já cadastrado" :=
  ⟨by decide, by decide, by decide⟩

/-- Claim C2, amended: when the pre-checks pass but the insert fails (with a
uniqueness violation or any other storage error), `Register` answers the
generic wrapped error "erro ao criar usuário: …", which is never equal
to either Conflict error of the pre-checks. -/
theorem register_insert_error_generic (c : RegisterCalls) (input : RegisterInput)
    (e : DBErr)
    (hval : validateRegisterInput input = none)
    (hem : c.getUserByEmail = .error .noRows)
    (hun : c.getUserByUsername = .error .noRows)
    (hh : ∃ d, c.hashPassword = .ok d)
    (hc : c.createUser = .error e) :
    RegisterWithCalls c input = Except.error ("erro ao criar usuário: " ++ e.msg) ∧
    "erro ao criar usuário: " ++ e.msg ≠ "email já cadastrado" ∧
    "erro ao criar usuário: " ++ e.msg ≠ "username já cadastrado" := by
  obtain ⟨d, hd⟩ := hh
  refine ⟨?_, ?_, ?_⟩
  · unfold RegisterWithCalls
    rw [hval, hem, hun, hd, hc]
  · intro hcontra
    have hlen := congrArg String.length hcontra
    rw [String.length_append] at hlen
    have h1 : ("erro ao criar usuário: " : String).length = 23 := by decide
    have h2 : ("email já cadastrado" : String).length = 19 := by decide
    omega
  · intro hcontra
    have hlen := congrArg String.length hcontra
    rw [String.length_append] at hlen
    have h1 : ("erro ao criar usuário: " : String).length = 23 := by decide
    have h2 : ("username já cadastrado" : String).length = 22 := by decide
    omega

/-- Claim C2, amended witness: a concrete run of the duplicate-insert
scenario. -/
theorem register_insert_error_generic_witness :
    RegisterWithCalls callsDup ⟨"bob", "bob@example.com", "secret123"⟩ =
      Except.error
        "erro ao criar usuário: duplicate key value violates unique constraint" := by
  have h := register_insert_error_generic callsDup ⟨"bob", "bob@example.com", "secret123"⟩
    (.other "duplicate key value violates unique constraint")
    (by decide) rfl rfl ⟨bcryptGenerate 12 "s" "secret123", rfl⟩ rfl
  exact h.1

/-! ## Claim C4: verification failures are wrapped, not collapsed -/

/-- Claim C4, counterexample: two refresh tokens failing cryptographic
verification for different internal reasons (malformed input versus
expiry) surface two different error values at the `RefreshToken`
boundary, because `%w` wrapping embeds the internal reason in the
message. -/
theorem refresh_error_reason_leaks :
    (RefreshToken cfgW "jti-2" 2000 (.str "garbage") stW).1 =
      Except.error
        "refresh token inválido: erro ao parsear refresh token: token is malformed" ∧
    (RefreshToken cfgW "jti-2" 2000 (.tok refreshW) stW).1 =
      Except.error
        ("refresh token inválido: erro ao parsear refresh token: " ++
          "token has invalid claims: token is expired") ∧
    ("refresh token inválido: erro ao parsear refresh token: token is malformed" : String) ≠
      "refresh token inválido: erro ao parsear refresh token: " ++
        "token has invalid claims: token is expired" :=
  ⟨by decide, by decide, by decide⟩

/-- Claim C4, amended: every cryptographic verification failure inside
`RefreshToken` is answered as the fixed prefix "refresh token inválido: "
wrapping the internal verification error; the prefix is uniform but the
internal reason remains embedded, so different internal failures remain
distinguishable to the caller. -/
theorem refresh_wraps_validation_error (cfg : Config) (jti : String) (now : Int)
    (t : TokenString) (st : DBState) (e : String)
    (hne : t.isEmptyStr = false)
    (hv : ValidateRefreshToken t cfg.refreshSecret now = .error e) :
    RefreshToken cfg jti now t st = (Except.error ("refresh token inválido: " ++ e), st) := by
  unfold RefreshToken
  rw [hne]
  simp only [Bool.false_eq_true, if_false, hv]

/-- Claim C4, amended witness: the malformed concrete token is answered with
the wrapped malformed reason. -/
theorem refresh_wraps_validation_error_witness :
    RefreshToken cfgW "jti-2" 2000 (.str "garbage") stW =
      (Except.error
        "refresh token inválido: erro ao parsear refresh token: token is malformed", stW) :=
  refresh_wraps_validation_error cfgW "jti-2" 2000 (.str "garbage") stW
    "erro ao parsear refresh token: token is malformed" (by decide) (by decide)

/-! ## Claim C6: non-HMAC algorithms are rejected by both validators -/

/-- Claim C6: a token whose header algorithm is outside the HMAC family —
`none` or an asymmetric algorithm — is rejected by both
`ValidateAccessToken` and `ValidateRefreshToken` with the key-function
error, whatever its payload, expiry or signature; no claims and no
subject are ever answered for it. -/
theorem validators_reject_non_hmac (t : JWT) (h : t.alg.isHMAC = false)
    (s1 s2 : String) (n1 n2 : Int) :
    ValidateAccessToken (.tok t) s1 n1 =
      Except.error
        ("erro ao parsear token: " ++ ("token is unverifiable: error while executing keyfunc: " ++
          ("método de assinatura inesperado: " ++ t.alg.name))) ∧
    ValidateRefreshToken (.tok t) s2 n2 =
      Except.error
        ("erro ao parsear refresh token: " ++ ("token is unverifiable: error while executing keyfunc: " ++
          ("método de assinatura inesperado: " ++ t.alg.name))) := by
  constructor <;>
    simp [ValidateAccessToken, ValidateRefreshToken, parseWithClaims, hmacKeyfunc, h]

/-- Claim C6, witness: an unexpired token signed with the `none` algorithm is
rejected by both validators. -/
theorem validators_reject_non_hmac_witness :
    ValidateAccessToken (.tok ⟨.alg_none, payloadW, signPayload .alg_none "refresh-secret" payloadW⟩)
        "refresh-secret" 500 =
      Except.error
        ("erro ao parsear token: " ++ ("token is unverifiable: error while executing keyfunc: " ++
          ("método de assinatura inesperado: " ++ "none"))) ∧
    ValidateRefreshToken (.tok ⟨.alg_none, payloadW, signPayload .alg_none "refresh-secret" payloadW⟩)
        "refresh-secret" 500 =
      Except.error
        ("erro ao parsear refresh token: " ++ ("token is unverifiable: error while executing keyfunc: " ++
          ("método de assinatura inesperado: " ++ "none"))) :=
  validators_reject_non_hmac
    ⟨.alg_none, payloadW, signPayload .alg_none "refresh-secret" payloadW⟩
    (by decide) "refresh-secret" "refresh-secret" 500 500

/-! ## Claim C8: password hash round trip -/

/-- Claim C8: verifying a password against its own digest answers `true`;
verifying any other password against that digest answers the boolean
`false` (no exception, no error value). -/
theorem password_hash_verify_roundtrip (salt p q : String) (hne : q ≠ p) :
    ∃ d, HashPassword salt p = Except.ok d ∧
      CheckPassword p d = true ∧ CheckPassword q d = false := by
  refine ⟨bcryptGenerate 12 salt p, rfl, ?_, ?_⟩
  · simp [CheckPassword, bcryptCompare, bcryptGenerate]
  · simp only [CheckPassword, bcryptCompare, bcryptGenerate, beq_eq_false_iff_ne, ne_eq]
    intro hdata
    apply hne
    have hq : q.data = p.data := List.append_cancel_right hdata
    cases q; cases p
    exact congrArg String.mk hq

/-- Claim C8, witness: the concrete digest of "secret123" verifies "secret123"
and rejects "wrong1". -/
theorem password_hash_verify_roundtrip_witness :
    ∃ d, HashPassword "saltW" "secret123" = Except.ok d ∧
      CheckPassword "secret123" d = true ∧ CheckPassword "wrong1" d = false :=
  password_hash_verify_roundtrip "saltW" "secret123" "wrong1" (by decide)

end ChatKafka
